import Mathlib

/-!
Shallow embedding of the chat controller in `src/App.jsx` (Teslay).

The stateful React component is modelled by explicit state passing: the
relevant pieces of component state (`messages`, `unreadCount`,
`lastUnreadIdRef`, `isFirstLoad`, `inputValue`) are collected in a
`ChatState` record, network side effects are logged as a list of
`Request` values, and the outcome of each awaited backend call is passed
in as an `Except String _` parameter.  Each Lean definition is a direct
transcription of the JavaScript function of the same name.
-/

namespace Teslay

/-- ECMA-262 white-space and line-terminator code points, as recognised by
`String.prototype.trim` (used in `content.trim()` in `handleSendMessage`). -/
def isJsWhitespace (c : Char) : Bool :=
  c == ' ' || c == '\t' || c == '\n' || c == '\r' ||
  c.val == 0x0b || c.val == 0x0c || c.val == 0xa0 || c.val == 0x1680 ||
  (0x2000 ≤ c.val && c.val ≤ 0x200a) ||
  c.val == 0x2028 || c.val == 0x2029 || c.val == 0x202f ||
  c.val == 0x205f || c.val == 0x3000 || c.val == 0xfeff

/-- JavaScript `String.prototype.trim`: strip leading and trailing
white space. -/
def jsTrim (s : String) : String :=
  String.mk (((s.data.dropWhile isJsWhitespace).reverse.dropWhile isJsWhitespace).reverse)

/-- A chat message as it appears in the component state.  `msgStatus` is the
transient client-only delivery marker: `some 1` = pending, `some 2` = failed,
`none` = absent/confirmed (matching `msgStatus: undefined`). -/
structure Msg where
  id : Nat
  content : String
  image_url : String
  is_reply : Bool
  is_view : Bool
  create_time : Nat
  msgStatus : Option Nat
deriving Repr, DecidableEq

/-- Network calls issued by the controller, in order. -/
inductive Request where
  | chatHistory (isGreeting : Bool)
  | sendChat (content : String) (imageUrl : String)
  | chatRead (id : Nat)
  | ossSign (suffix : String)
  | ossUpload (uploadUrl : String)
deriving Repr, DecidableEq

/-- The component state relevant to the claims: `messages`, `greetings`,
`inputValue`, `unreadCount` (React state hooks), `isFirstLoad` (state hook)
and `lastUnreadId` (the `lastUnreadIdRef` ref).  `toasts` logs every
`showToast(message)` call in order. -/
structure ChatState where
  messages : List Msg
  greetings : List Msg
  inputValue : String
  unreadCount : Nat
  isFirstLoad : Bool
  lastUnreadId : Nat
  toasts : List String
deriving Repr, DecidableEq

/-- The `useState`/`useRef` initialisers of `ChatApp`. -/
def initialChatState : ChatState :=
  { messages := []
    greetings := []
    inputValue := ""
    unreadCount := 0
    isFirstLoad := true
    lastUnreadId := 0
    toasts := [] }

/-- The `for (let i = 0; i < msgs.length; i++)` loop body of
`processMessages`: `processed.unshift(msg)`; on `!msg.is_view` increment
`unread`, and when additionally `i === 0 && !msg.is_reply` record
`lastUnread = msg.id`. -/
def processLoop (i : Nat) (msgs : List Msg) (processed : List Msg)
    (unread lastUnread : Nat) : List Msg × Nat × Nat :=
  match msgs with
  | [] => (processed, unread, lastUnread)
  | msg :: rest =>
    if !msg.is_view then
      processLoop (i + 1) rest (msg :: processed) (unread + 1)
        (if i == 0 && !msg.is_reply then msg.id else lastUnread)
    else
      processLoop (i + 1) rest (msg :: processed) unread lastUnread

/-- `processMessages(msgs)`: run the loop from `i = 0` with empty
accumulators, then `lastUnreadIdRef.current = lastUnread`,
`setMessages(processed)`, `setUnreadCount(unread)`.  (The trailing
auto-scroll is presentation only and carries no state.) -/
def processMessages (msgs : List Msg) (s : ChatState) : ChatState :=
  let r := processLoop 0 msgs [] 0 0
  { s with messages := r.1, unreadCount := r.2.1, lastUnreadId := r.2.2 }

/-- The polymorphic `/chat/chat-record` payload: either a flat array or
`{greeting, list}`. -/
inductive HistoryResponse where
  | flat (msgs : List Msg)
  | structured (greeting : List Msg) (list : List Msg)
deriving Repr, DecidableEq

/-- `loadMessages(isInitial)`: calls `api.getChatHistory(!isFirstLoad)`;
on the object form stores greetings (only when non-empty and initial),
processes the list; sets `isFirstLoad = false` when `isInitial`; on error
only logs.  The second component records the history request issued,
with the `is_greeting` flag actually sent. -/
def loadMessages (isInitial : Bool) (response : Except String HistoryResponse)
    (s : ChatState) : ChatState × List Request :=
  let req := Request.chatHistory (!s.isFirstLoad)
  match response with
  | .error _ => (s, [req])
  | .ok data =>
    let s1 :=
      match data with
      | .flat msgs => processMessages msgs s
      | .structured greeting list =>
        let s0 :=
          if greeting.length != 0 && isInitial then
            { s with greetings :=
                greeting.map (fun g => { g with is_reply := true, is_view := true }) }
          else s
        processMessages list s0
    let s2 := if isInitial then { s1 with isFirstLoad := false } else s1
    (s2, [req])

/-- `markAsRead(id)`: early return on falsy id (no request); otherwise issue
`/chat/chat-read`; on success zero both `unreadCount` and
`lastUnreadIdRef.current`; on failure only log. -/
def markAsRead (id : Nat) (outcome : Except String Unit) (s : ChatState) :
    ChatState × List Request :=
  if id = 0 then (s, [])
  else
    match outcome with
    | .ok _ => ({ s with unreadCount := 0, lastUnreadId := 0 }, [Request.chatRead id])
    | .error _ => (s, [Request.chatRead id])

/-- The optimistic `tempMessage` literal built by `handleSendMessage`
(`id: Date.now()`, trimmed content, `create_time: Date.now()/1000`,
`msgStatus: 1`). -/
def tempMessage (content imageUrl : String) (now : Nat) : Msg :=
  { id := now
    content := jsTrim content
    image_url := imageUrl
    is_reply := false
    is_view := true
    create_time := now / 1000
    msgStatus := some 1 }

/-- `handleSendMessage(content, imageUrl)`: guard
`if (!content.trim() && !imageUrl) return`; append the optimistic message,
clear the input, send `{content: content.trim(), image_url}`; on success map
the message's `msgStatus` to `undefined`, on failure map it to `2` and
toast the error. -/
def handleSendMessage (content imageUrl : String) (now : Nat)
    (outcome : Except String Unit) (s : ChatState) : ChatState × List Request :=
  if jsTrim content = "" ∧ imageUrl = "" then (s, [])
  else
    let tm := tempMessage content imageUrl now
    let s1 := { s with messages := s.messages ++ [tm], inputValue := "" }
    match outcome with
    | .ok _ =>
      ({ s1 with messages := s1.messages.map (fun m => if m.id == tm.id then { m with msgStatus := none } else m) },
       [Request.sendChat (jsTrim content) imageUrl])
    | .error e =>
      ({ s1 with
          messages := s1.messages.map (fun m => if m.id == tm.id then { m with msgStatus := some 2 } else m),
          toasts := s1.toasts ++ [e] },
       [Request.sendChat (jsTrim content) imageUrl])

/-- `MAX_SIZE = 2 * 1024 * 1024` in `handleImageUpload`. -/
def MAX_SIZE : Nat := 2 * 1024 * 1024

/-- The two fields of a browser `File` that `handleImageUpload` reads. -/
structure FileInfo where
  name : String
  size : Nat
deriving Repr, DecidableEq

/-- Helper for `extOf`: the characters after the last `'.'`, when any. -/
def afterLastDot : List Char → Option (List Char)
  | [] => none
  | c :: rest =>
    match afterLastDot rest with
    | some tl => some tl
    | none => if c == '.' then some rest else none

/-- `file.name.match(/\.[^.]+$/)?.[0] || ''`: the final dot-extension of the
file name including the dot, or the empty string when the name has no dot or
ends in a dot. -/
def extOf (name : String) : String :=
  match afterLastDot name.data with
  | some tl => if tl.isEmpty then "" else String.mk ('.' :: tl)
  | none => ""

/-- The `data` of `/oss/oss-sign-new` as destructured by
`handleImageUpload`: `upload_url`, `url`, and the remaining credential
fields (opaque here; they are forwarded verbatim to the form upload). -/
structure OSSSignData where
  upload_url : String
  url : String
deriving Repr, DecidableEq

/-- `handleImageUpload(file)`: early return on no file; toast-and-return on
`file.size > MAX_SIZE`; otherwise append an optimistic image message with the
local preview URL, request a signature for the file extension, upload, patch
the message to the permanent URL and clear its status, then send
`handleSendMessage('', url)` (its own errors are handled inside it); on any
failure in the chain mark the message failed and toast.  `now` is the
`Date.now()` of the optimistic message, `now2` the one inside the nested
`handleSendMessage` call. -/
def handleImageUpload (file : Option FileInfo) (previewUrl : String)
    (now now2 : Nat) (sign : Except String OSSSignData)
    (upload : Except String Unit) (send : Except String Unit)
    (s : ChatState) : ChatState × List Request :=
  match file with
  | none => (s, [])
  | some f =>
    if f.size > MAX_SIZE then
      ({ s with toasts := s.toasts ++ ["Image size must be less than 2MB"] }, [])
    else
      let tm : Msg :=
        { id := now
          content := ""
          image_url := previewUrl
          is_reply := false
          is_view := true
          create_time := now / 1000
          msgStatus := some 1 }
      let s1 := { s with messages := s.messages ++ [tm] }
      let ext := extOf f.name
      match sign with
      | .error e =>
        ({ s1 with
            messages := s1.messages.map (fun m => if m.id == now then { m with msgStatus := some 2 } else m),
            toasts := s1.toasts ++ [e] },
         [Request.ossSign ext])
      | .ok sd =>
        match upload with
        | .error e =>
          ({ s1 with
              messages := s1.messages.map
                (fun m => if m.id == now then { m with msgStatus := some 2 } else m)
              toasts := s1.toasts ++ [e] },
           [Request.ossSign ext, Request.ossUpload sd.upload_url])
        | .ok _ =>
          let s2 := { s1 with messages := s1.messages.map (fun m => if m.id == now then { m with image_url := sd.url, msgStatus := none } else m) }
          let r := handleSendMessage "" sd.url now2 send s2
          (r.1, [Request.ossSign ext, Request.ossUpload sd.upload_url] ++ r.2)

/-! ## Helper lemmas about the merge loop -/

/-- The accumulated `processed` list is the reversal of the walked input,
prepended to the initial accumulator. -/
theorem processLoop_messages (msgs : List Msg) : ∀ i processed unread lastUnread,
    (processLoop i msgs processed unread lastUnread).1 = msgs.reverse ++ processed := by
  induction msgs with
  | nil => intro i p u lu; simp [processLoop]
  | cons m rest ih =>
    intro i p u lu
    cases hm : m.is_view <;>
      simp [processLoop, hm, ih, List.append_assoc]

/-- The accumulated `unread` counter adds one per walked entry with
`is_view = false`. -/
theorem processLoop_unread (msgs : List Msg) : ∀ i processed unread lastUnread,
    (processLoop i msgs processed unread lastUnread).2.1
      = unread + msgs.countP (fun m => !m.is_view) := by
  induction msgs with
  | nil => intro i p u lu; simp [processLoop]
  | cons m rest ih =>
    intro i p u lu
    cases hm : m.is_view <;>
      (simp [processLoop, hm, ih, List.countP_cons]; try omega)

/-- Once the loop index is past `0`, `lastUnread` is never reassigned. -/
theorem processLoop_lastUnread_frozen (msgs : List Msg) :
    ∀ i processed unread lastUnread, i ≠ 0 →
      (processLoop i msgs processed unread lastUnread).2.2 = lastUnread := by
  induction msgs with
  | nil => intro i p u lu _; simp [processLoop]
  | cons m rest ih =>
    intro i p u lu hi
    have hiz : (i == 0) = false := by simp [hi]
    cases hm : m.is_view <;>
      simp [processLoop, hm, hiz, ih _ _ _ _ (Nat.succ_ne_zero i)]

/-- Characterisation of `lastUnreadIdRef` after `processMessages`: it is the
id of the first (newest) fetched entry when that entry has `is_view = false`
and `is_reply = false`, and `0` otherwise. -/
theorem processMessages_lastUnreadId_char (msgs : List Msg) (s : ChatState) :
    (processMessages msgs s).lastUnreadId =
      match msgs with
      | [] => 0
      | m :: _ => if m.is_view = false ∧ m.is_reply = false then m.id else 0 := by
  cases msgs with
  | nil => simp [processMessages, processLoop]
  | cons m rest =>
    cases hm : m.is_view <;> cases hr : m.is_reply <;>
      simp [processMessages, processLoop, hm, hr,
        processLoop_lastUnread_frozen rest 1 _ _ _ (Nat.succ_ne_zero 0)]

/-- Characterisation of the unread counter after `processMessages`. -/
theorem processMessages_unreadCount_char (msgs : List Msg) (s : ChatState) :
    (processMessages msgs s).unreadCount = msgs.countP (fun m => !m.is_view) := by
  simp [processMessages, processLoop_unread]

/-- Patching by id is the identity on a list that does not contain the id. -/
theorem map_patch_fresh (msgs : List Msg) (now : Nat) (g : Msg → Msg)
    (h : ∀ m ∈ msgs, m.id ≠ now) :
    msgs.map (fun m => if m.id == now then g m else m) = msgs := by
  induction msgs with
  | nil => rfl
  | cons m rest ih =>
    have h1 : ¬ ((m.id == now) = true) := by
      simp [h m (List.mem_cons_self m rest)]
    rw [List.map_cons, if_neg h1, ih (fun x hx => h x (List.mem_cons_of_mem m hx))]

/-- Whitespace-only strings trim to the empty string. -/
theorem jsTrim_eq_empty (s : String)
    (h : ∀ c ∈ s.data, isJsWhitespace c = true) : jsTrim s = "" := by
  have h1 : s.data.dropWhile isJsWhitespace = [] :=
    List.dropWhile_eq_nil_iff.mpr h
  simp [jsTrim, h1]

/-! ## Claim C1 -/

/-- The first message of the spec scenario for C1:
`{id:5, is_view:false, is_reply:true}`. -/
def c1msg5 : Msg :=
  { id := 5, content := "", image_url := "", is_reply := true, is_view := false,
    create_time := 0, msgStatus := none }

/-- The second message of the spec scenario for C1:
`{id:4, is_view:true, is_reply:false}`. -/
def c1msg4 : Msg :=
  { id := 4, content := "", image_url := "", is_reply := false, is_view := true,
    create_time := 0, msgStatus := none }

/-- C1 counterexample: on the spec scenario input
`[{id:5,is_view:false,is_reply:true},{id:4,is_view:true,is_reply:false}]`
the merge step does NOT record `5` as the low-water-mark id (it records `0`):
the loop assigns `lastUnread` only when `i === 0 && !msg.is_reply`, and the
first entry here has `is_reply = true`. -/
theorem c1_counterexample :
    ¬ (processMessages [c1msg5, c1msg4] initialChatState).lastUnreadId = 5 := by
  decide

/-- C1 (amended): the merge step records as the low-water-mark id the id of
the first entry of the original (newest-first) sequence exactly when that
entry is unread (`is_view = false`) and outbound (`is_reply = false`), and
records `0` otherwise; in particular the spec scenario input yields
low-water-mark `0`, not `5`. -/
theorem c1_amended_lowWaterMark (msgs : List Msg) (s : ChatState) :
    ((processMessages msgs s).lastUnreadId =
      match msgs with
      | [] => 0
      | m :: _ => if m.is_view = false ∧ m.is_reply = false then m.id else 0) ∧
    (processMessages [c1msg5, c1msg4] initialChatState).lastUnreadId = 0 := by
  exact ⟨processMessages_lastUnreadId_char msgs s, by decide⟩

/-! ## Claim C2 -/

/-- C2: the `is_greeting` flag is inverted relative to the claim.  On the
session's very first history fetch (initial state, no fetch completed yet)
the code sends `is_greeting=false`, and on a poll after the initial fetch
completed it sends `is_greeting=true` — the flag sent equals "an initial
fetch has completed", not its negation as the claim states. -/
theorem c2_flag_inverted :
    (loadMessages true (Except.ok (HistoryResponse.flat [])) initialChatState).2
      = [Request.chatHistory false] ∧
    (loadMessages false (Except.ok (HistoryResponse.flat []))
        ((loadMessages true (Except.ok (HistoryResponse.flat []))
          initialChatState).1)).2
      = [Request.chatHistory true] := by
  exact ⟨rfl, rfl⟩

/-! ## Claim C3 -/

/-- C3: for every fetched (newest-first) sequence, the merged display list is
exactly the reversal of the input, and it fully replaces the previous local
message list — the result does not depend on the prior `messages` at all. -/
theorem c3_merge_reverses_and_replaces (msgs : List Msg) (s : ChatState) :
    (processMessages msgs s).messages = msgs.reverse := by
  simp [processMessages, processLoop_messages]

/-! ## Claim C4 -/

/-- C4: the unread count set by the merge step equals the number of entries
of the fetched batch with `is_view = false`. -/
theorem c4_unread_count (msgs : List Msg) (s : ChatState) :
    (processMessages msgs s).unreadCount = msgs.countP (fun m => !m.is_view) := by
  exact processMessages_unreadCount_char msgs s

/-! ## Claim C5 -/

/-- C5: for every nonzero id (the only ids for which `markAsRead` issues a
request), a successful read confirmation zeroes the unread count and the
low-water-mark regardless of the state's current low-water-mark, while a
failed one leaves the whole state unchanged (so no toast is surfaced). -/
theorem c5_markAsRead (id : Nat) (s : ChatState) (e : String) (h : id ≠ 0) :
    (markAsRead id (Except.ok ()) s).1.unreadCount = 0 ∧
    (markAsRead id (Except.ok ()) s).1.lastUnreadId = 0 ∧
    (markAsRead id (Except.error e) s).1 = s ∧
    (markAsRead id (Except.error e) s).1.toasts = s.toasts := by
  rw [markAsRead, markAsRead, if_neg h, if_neg h]
  exact ⟨rfl, rfl, rfl, rfl⟩

/-- A sample state with pending unread messages whose low-water-mark (`12`)
differs from the id being confirmed in the C5 witness (`7`). -/
def sampleUnreadState : ChatState :=
  { initialChatState with unreadCount := 3, lastUnreadId := 12 }

/-- C5 witness: confirming id `7` (≠ low-water-mark `12`) still zeroes both
counters on success, and a failure leaves the state untouched. -/
theorem c5_markAsRead_witness :
    (markAsRead 7 (Except.ok ()) sampleUnreadState).1.unreadCount = 0 ∧
    (markAsRead 7 (Except.ok ()) sampleUnreadState).1.lastUnreadId = 0 ∧
    (markAsRead 7 (Except.error "boom") sampleUnreadState).1 = sampleUnreadState ∧
    (markAsRead 7 (Except.error "boom") sampleUnreadState).1.toasts
      = sampleUnreadState.toasts :=
  c5_markAsRead 7 sampleUnreadState "boom" (by decide)

/-! ## Claim C6 -/

/-- The unread-tracking invariant of the spec: the low-water-mark id is
nonzero only while the unread count is positive. -/
def UnreadInvariant (s : ChatState) : Prop :=
  s.lastUnreadId ≠ 0 → 0 < s.unreadCount

/-- C6: the unread-tracking invariant holds after every merge
(`processMessages`, unconditionally) and is preserved by every read
confirmation (`markAsRead`); moreover `markAsRead` either zeroes both
counters in the same step or leaves the state unchanged. -/
theorem c6_invariant (msgs : List Msg) (s : ChatState) (id : Nat)
    (outcome : Except String Unit) (h : UnreadInvariant s) :
    UnreadInvariant (processMessages msgs s) ∧
    UnreadInvariant (markAsRead id outcome s).1 ∧
    (((markAsRead id outcome s).1.unreadCount = 0 ∧
        (markAsRead id outcome s).1.lastUnreadId = 0) ∨
      (markAsRead id outcome s).1 = s) := by
  refine ⟨?_, ?_, ?_⟩
  · intro hne
    rw [processMessages_lastUnreadId_char] at hne
    rw [processMessages_unreadCount_char]
    cases msgs with
    | nil => exact absurd rfl hne
    | cons m rest =>
      have hne2 : (if m.is_view = false ∧ m.is_reply = false then m.id else 0) ≠ 0 := hne
      by_cases hc : m.is_view = false ∧ m.is_reply = false
      · rw [List.countP_cons]
        have hv : (fun m => !m.is_view) m = true := by simp [hc.1]
        simp [hv]
      · rw [if_neg hc] at hne2
        exact absurd rfl hne2
  · cases outcome with
    | ok u =>
      by_cases hid : id = 0
      · rw [markAsRead, if_pos hid]; exact h
      · rw [markAsRead, if_neg hid]; intro hne; exact absurd rfl hne
    | error e =>
      by_cases hid : id = 0
      · rw [markAsRead, if_pos hid]; exact h
      · rw [markAsRead, if_neg hid]; exact h
  · cases outcome with
    | ok u =>
      by_cases hid : id = 0
      · rw [markAsRead, if_pos hid]; exact Or.inr rfl
      · rw [markAsRead, if_neg hid]; exact Or.inl ⟨rfl, rfl⟩
    | error e =>
      by_cases hid : id = 0
      · rw [markAsRead, if_pos hid]; exact Or.inr rfl
      · rw [markAsRead, if_neg hid]; exact Or.inr rfl

/-- C6 witness: the invariant theorem applied at a concrete state (fresh
session state, which satisfies the invariant vacuously), a concrete fetched
batch and a concrete confirmed id. -/
theorem c6_invariant_witness :
    UnreadInvariant (processMessages [c1msg5, c1msg4] initialChatState) ∧
    UnreadInvariant (markAsRead 7 (Except.ok ()) initialChatState).1 ∧
    (((markAsRead 7 (Except.ok ()) initialChatState).1.unreadCount = 0 ∧
        (markAsRead 7 (Except.ok ()) initialChatState).1.lastUnreadId = 0) ∨
      (markAsRead 7 (Except.ok ()) initialChatState).1 = initialChatState) :=
  c6_invariant [c1msg5, c1msg4] initialChatState 7 (Except.ok ())
    (fun hne => absurd rfl hne)

/-! ## Claim C7 -/

/-- C7: when the backend call of a send fails, the resulting message list is
exactly the previous list with the one optimistic message appended and its
`msgStatus` (only) changed to the failed marker `2`, and exactly one toast
(the error message) is produced.  The freshness hypothesis models the
locally generated `Date.now()` id not colliding with any listed message. -/
theorem c7_failed_send (content imageUrl : String) (now : Nat) (e : String)
    (s : ChatState) (hne : ¬(jsTrim content = "" ∧ imageUrl = ""))
    (hfresh : ∀ m ∈ s.messages, m.id ≠ now) :
    (handleSendMessage content imageUrl now (Except.error e) s).1.messages
      = s.messages ++ [{ tempMessage content imageUrl now with msgStatus := some 2 }] ∧
    (handleSendMessage content imageUrl now (Except.error e) s).1.toasts
      = s.toasts ++ [e] := by
  rw [handleSendMessage, if_neg hne]
  refine ⟨?_, rfl⟩
  show (s.messages ++ [tempMessage content imageUrl now]).map _ = _
  rw [List.map_append]
  have hid : (tempMessage content imageUrl now).id = now := rfl
  rw [hid]
  rw [map_patch_fresh s.messages now _ hfresh]
  simp [tempMessage]

/-- C7 witness: a concrete failed send of `"hi"` onto the fresh session
state appends the single failed optimistic message and one toast. -/
theorem c7_failed_send_witness :
    (handleSendMessage "hi" "" 99 (Except.error "boom") initialChatState).1.messages
      = initialChatState.messages
        ++ [{ tempMessage "hi" "" 99 with msgStatus := some 2 }] ∧
    (handleSendMessage "hi" "" 99 (Except.error "boom") initialChatState).1.toasts
      = initialChatState.toasts ++ ["boom"] :=
  c7_failed_send "hi" "" 99 "boom" initialChatState (by decide)
    (by simp [initialChatState])

/-! ## Claim C8 -/

/-- C8: a send with empty content and empty image URL is a complete no-op:
the returned state is the input state (message list, input value, unread
count and toast log all unchanged) and no request is issued. -/
theorem c8_empty_send_noop (now : Nat) (outcome : Except String Unit)
    (s : ChatState) :
    handleSendMessage "" "" now outcome s = (s, []) := by
  rw [handleSendMessage, if_pos ⟨rfl, rfl⟩]

/-! ## Claim C9 -/

/-- C9: for every file larger than `2 * 1024 * 1024` bytes, the image-upload
handler leaves the message list unchanged (no optimistic message), produces
exactly one toast, and issues no network request. -/
theorem c9_oversized_upload (f : FileInfo) (previewUrl : String)
    (now now2 : Nat) (sign : Except String OSSSignData)
    (upload send : Except String Unit) (s : ChatState)
    (h : f.size > MAX_SIZE) :
    (handleImageUpload (some f) previewUrl now now2 sign upload send s).1.messages
      = s.messages ∧
    (handleImageUpload (some f) previewUrl now now2 sign upload send s).1.toasts
      = s.toasts ++ ["Image size must be less than 2MB"] ∧
    (handleImageUpload (some f) previewUrl now now2 sign upload send s).2 = [] := by
  rw [handleImageUpload, if_pos h]
  exact ⟨rfl, rfl, rfl⟩

/-- C9 witness: uploading a 3 MiB file onto the fresh session state adds no
message, shows the one size toast, and makes no network call. -/
theorem c9_oversized_upload_witness :
    (handleImageUpload (some ⟨"big.png", 3 * 1024 * 1024⟩) "blob:p" 99 100
        (Except.ok ⟨"u", "v"⟩) (Except.ok ()) (Except.ok ())
        initialChatState).1.messages = initialChatState.messages ∧
    (handleImageUpload (some ⟨"big.png", 3 * 1024 * 1024⟩) "blob:p" 99 100
        (Except.ok ⟨"u", "v"⟩) (Except.ok ()) (Except.ok ())
        initialChatState).1.toasts
      = initialChatState.toasts ++ ["Image size must be less than 2MB"] ∧
    (handleImageUpload (some ⟨"big.png", 3 * 1024 * 1024⟩) "blob:p" 99 100
        (Except.ok ⟨"u", "v"⟩) (Except.ok ()) (Except.ok ())
        initialChatState).2 = [] :=
  c9_oversized_upload ⟨"big.png", 3 * 1024 * 1024⟩ "blob:p" 99 100
    (Except.ok ⟨"u", "v"⟩) (Except.ok ()) (Except.ok ()) initialChatState
    (by decide)

/-! ## Claim C10 -/

/-- C10: the empty-send guard really checks the trimmed content: a content
string of whitespace only (with no image URL) mutates nothing and sends
nothing; and whenever the guard passes (an optimistic message is created),
the message appended to the list stores the trimmed content and the request
carries the trimmed content. -/
theorem c10_trim_guard (content imageUrl : String) (now : Nat)
    (outcome : Except String Unit) (s : ChatState) :
    ((∀ c ∈ content.data, isJsWhitespace c = true) →
        handleSendMessage content "" now outcome s = (s, [])) ∧
    (¬(jsTrim content = "" ∧ imageUrl = "") → (∀ m ∈ s.messages, m.id ≠ now) →
        (handleSendMessage content imageUrl now outcome s).2
          = [Request.sendChat (jsTrim content) imageUrl] ∧
        ∃ st, (handleSendMessage content imageUrl now outcome s).1.messages
            = s.messages ++ [{ tempMessage content imageUrl now with msgStatus := st }] ∧
          ({ tempMessage content imageUrl now with msgStatus := st }).content
            = jsTrim content) := by
  constructor
  · intro hws
    rw [handleSendMessage, if_pos ⟨jsTrim_eq_empty content hws, rfl⟩]
  · intro hne hfresh
    cases outcome with
    | ok u =>
      rw [handleSendMessage, if_neg hne]
      refine ⟨rfl, none, ?_, rfl⟩
      show (s.messages ++ [tempMessage content imageUrl now]).map _ = _
      rw [List.map_append]
      have hid : (tempMessage content imageUrl now).id = now := rfl
      rw [hid, map_patch_fresh s.messages now _ hfresh]
      simp [tempMessage]
    | error e =>
      rw [handleSendMessage, if_neg hne]
      refine ⟨rfl, some 2, ?_, rfl⟩
      show (s.messages ++ [tempMessage content imageUrl now]).map _ = _
      rw [List.map_append]
      have hid : (tempMessage content imageUrl now).id = now := rfl
      rw [hid, map_patch_fresh s.messages now _ hfresh]
      simp [tempMessage]

/-- C10 witness: at whitespace-only content `"   "` the send is a no-op, and
with a non-empty image URL the guard passes and the appended message and the
request both carry the trimmed (empty) content. -/
theorem c10_trim_guard_witness :
    handleSendMessage "   " "" 99 (Except.ok ()) initialChatState
      = (initialChatState, []) ∧
    ((handleSendMessage "   " "http:img" 99 (Except.ok ()) initialChatState).2
        = [Request.sendChat (jsTrim "   ") "http:img"] ∧
      ∃ st, (handleSendMessage "   " "http:img" 99 (Except.ok ())
            initialChatState).1.messages
          = initialChatState.messages
            ++ [{ tempMessage "   " "http:img" 99 with msgStatus := st }] ∧
        ({ tempMessage "   " "http:img" 99 with msgStatus := st }).content
          = jsTrim "   ") :=
  ⟨(c10_trim_guard "   " "http:img" 99 (Except.ok ()) initialChatState).1
      (by decide),
    (c10_trim_guard "   " "http:img" 99 (Except.ok ()) initialChatState).2
      (by decide) (by simp [initialChatState])⟩

end Teslay
